import Mathlib

/-!  Verification of the pygamengn network client subsystem: a shallow
embedding of fsm.py (the generic table-driven finite state machine) and
client.py (the multiplayer client controller), with theorems about the
transition, tick and stop behavior.  The proto_message / proto_reader /
proto_writer modules are not in the available source and are modelled from
the spec where the client touches them. -/

/-- Python exception kinds that can arise in the embedded code paths. -/
inductive PyExn where
  | runtimeError
  | connectionRefusedError
  | connectionResetError
  | connectionAbortedError
  | brokenPipeError
  | valueError
  | keyError
  | attributeError
  | assertionError
  | osError
  deriving DecidableEq, Repr

/-- One entry of the FSM transition table: the target state and an optional
guard callback (fsm.py stores these as a dict with keys state and callback;
a callback is a closure mutating environment ε and returning a Bool). -/
structure TransitionEntry (σ ε : Type) where
  state : σ
  callback : Option (ε → ε × Bool)

/-- fsm.py FiniteStateMachine: current state plus the transition table
indexed by state then input; a missing table entry models the Python
KeyError raised at dict lookup. -/
structure FiniteStateMachine (σ ι ε : Type) where
  state : σ
  transitions : σ → ι → Option (TransitionEntry σ ε)

/-- Outcome of FiniteStateMachine.transition: the machine after the call,
the environment after (the closure state that callbacks mutate), and the
exception raised, if any. -/
structure TransitionResult (σ ι ε : Type) where
  machine : FiniteStateMachine σ ι ε
  env : ε
  raised : Option PyExn

/-- fsm.py FiniteStateMachine.transition: looks up (state, input); a missing
entry raises KeyError before any mutation; otherwise the callback (when
present) runs first — its environment effects are kept in every case — and
the state commits exactly when there is no callback or the callback returns
true; a false return vetoes the move without an error. -/
def FiniteStateMachine.transition {σ ι ε : Type} (m : FiniteStateMachine σ ι ε)
    (input : ι) (env : ε) : TransitionResult σ ι ε :=
  match m.transitions m.state input with
  | none => ⟨m, env, some PyExn.keyError⟩
  | some entry =>
    match entry.callback with
    | none => ⟨{ m with state := entry.state }, env, none⟩
    | some cb =>
      let r := cb env
      if r.2 then ⟨{ m with state := entry.state }, r.1, none⟩
      else ⟨m, r.1, none⟩

/-- client.py ClientState enum. -/
inductive ClientState where
  | DISCONNECTED
  | CONNECTED
  | READY
  | PLAYING
  deriving DecidableEq, Repr

/-- client.py ClientInput enum; the Python enum values are the wire strings
INIT, START, UPDATE, STOP. -/
inductive ClientInput where
  | INIT
  | START
  | UPDATE
  | STOP
  deriving DecidableEq, Repr

/-- The ClientInput(value) enum constructor lookup: string value to member, a
missing value modelling the Python ValueError. -/
def parseClientInput : String → Option ClientInput
  | "INIT" => some ClientInput.INIT
  | "START" => some ClientInput.START
  | "UPDATE" => some ClientInput.UPDATE
  | "STOP" => some ClientInput.STOP
  | _ => none

/-- Modelled from the spec: the outbound message kinds produced by the
message builder (proto_message.py is not in the available source). -/
inductive MessageKind where
  | connect
  | ready
  | input
  deriving DecidableEq, Repr

/-- Modelled from the spec: bytes of a string payload field. -/
def strBytes (s : String) : List Nat := s.data.map Char.toNat

/-- Modelled from the spec: a length-prefixed frame around a payload; the
exact byte layout is an open question in the spec, only length-prefixing
with a kind discriminator is fixed. -/
def encodeFrame (payload : List Nat) : List Nat := payload.length :: payload

/-- Modelled from the spec: a ProtoMessage carries its kind, its payload
fields and the serialized buffer ready for the writer (proto_message.py is
not in the available source). -/
structure ProtoMessage where
  kind : MessageKind
  commands : List String
  buffer : List Nat
  deriving DecidableEq, Repr

/-- Modelled from the spec: the connect message carries the player identity. -/
def ProtoMessage.connect_message (player : String) : ProtoMessage :=
  ⟨MessageKind.connect, [player], encodeFrame (0 :: strBytes player)⟩

/-- Modelled from the spec: the ready message has no payload fields. -/
def ProtoMessage.ready_message : ProtoMessage :=
  ⟨MessageKind.ready, [], encodeFrame [1]⟩

/-- Modelled from the spec: the input message carries a command list. -/
def ProtoMessage.input_message (cmds : List String) : ProtoMessage :=
  ⟨MessageKind.input, cmds, encodeFrame (2 :: (cmds.map strBytes).flatten)⟩

/-- Modelled from the spec: reset clears the fully sent in-flight message. -/
def ProtoMessage.reset (m : ProtoMessage) : ProtoMessage := { m with buffer := [] }

/-- client.py transition_connected: builds the ready message as the next
in-flight message and returns True. -/
def transition_connected : Option ProtoMessage → Option ProtoMessage × Bool :=
  fun _ => (some ProtoMessage.ready_message, true)

/-- client.py transition_playing: builds the input message with the fixed
command list and returns True. -/
def transition_playing : Option ProtoMessage → Option ProtoMessage × Bool :=
  fun _ => (some (ProtoMessage.input_message ["FORWARD", "LEFT", "FIRE"]), true)

/-- The transition table built in client.py Client.__init__. -/
def clientTransitions :
    ClientState → ClientInput → Option (TransitionEntry ClientState (Option ProtoMessage))
  | ClientState.DISCONNECTED, ClientInput.INIT =>
    some ⟨ClientState.CONNECTED, some transition_connected⟩
  | ClientState.CONNECTED, ClientInput.START =>
    some ⟨ClientState.PLAYING, some transition_playing⟩
  | ClientState.PLAYING, ClientInput.UPDATE =>
    some ⟨ClientState.PLAYING, some transition_playing⟩
  | ClientState.PLAYING, ClientInput.STOP =>
    some ⟨ClientState.DISCONNECTED, none⟩
  | _, _ => none

/-- The client FSM at a given current state, over the table from __init__;
the environment is the __proto_message field the callbacks mutate. -/
def clientMachine (s : ClientState) :
    FiniteStateMachine ClientState ClientInput (Option ProtoMessage) :=
  ⟨s, clientTransitions⟩

/-- selectors.EVENT_READ. -/
def EVENT_READ : Nat := 1

/-- selectors.EVENT_WRITE. -/
def EVENT_WRITE : Nat := 2

/-- Shallow state of a client.py Client: the FSM state, the in-flight
message (__proto_message, None before connect), the processed count, the
selector registration mask for the one socket (none when unregistered), a
flag for the selector being open, and whether the __socket field still
holds a socket object (none once stop() assigns None to it). -/
structure Client where
  fsmState : ClientState
  protoMessage : Option ProtoMessage
  processedCount : Nat
  registration : Option Nat
  selectorOpen : Bool
  socket : Option Unit
  deriving DecidableEq, Repr

/-- A client call outcome: the client state after the call and the raised
exception when one propagates out of the call. -/
structure ClientResult where
  client : Client
  raised : Option PyExn
  deriving DecidableEq, Repr

/-- A freshly constructed Client (client.py __init__): disconnected FSM, no
in-flight message, nothing registered, live selector and socket. -/
def Client.init : Client :=
  ⟨ClientState.DISCONNECTED, none, 0, none, true, some ()⟩

/-- client.py connect: non-blocking connect, builds the connect message and
registers write interest; the FSM state is not changed here. -/
def Client.connect (c : Client) (player : String) : Client :=
  { c with protoMessage := some (ProtoMessage.connect_message player),
           registration := some EVENT_WRITE }

/-- client.py __process_response: ClientInput(dictionary message value)
raises ValueError on an unknown value before the FSM is touched; otherwise
the FSM transition runs (possibly raising KeyError) and on normal return
the processed count is incremented. -/
def Client.processResponse (c : Client) (k : String) : ClientResult :=
  match parseClientInput k with
  | none => ⟨c, some PyExn.valueError⟩
  | some i =>
    let r := (clientMachine c.fsmState).transition i c.protoMessage
    match r.raised with
    | some e => ⟨{ c with fsmState := r.machine.state, protoMessage := r.env }, some e⟩
    | none =>
      ⟨{ c with fsmState := r.machine.state, protoMessage := r.env,
                processedCount := c.processedCount + 1 }, none⟩

/-- client.py __set_read_mode: modify the registration to read interest. -/
def Client.setReadMode (c : Client) : Client := { c with registration := some EVENT_READ }

/-- client.py __set_write_mode: modify the registration to write interest. -/
def Client.setWriteMode (c : Client) : Client := { c with registration := some EVENT_WRITE }

/-- Outcome of one ProtoReader.read call (proto_reader.py is not in the
available source; modelled from the spec: one non-blocking receive either
completes a frame, leaves it incomplete, or raises a transport fault —
RuntimeError for a peer close, ConnectionError kinds from the OS).  The
decoded object is a dict whose message field carries the input string. -/
inductive ReadOutcome where
  | incomplete
  | complete (msg : String)
  | fault (e : PyExn)
  deriving DecidableEq, Repr

/-- Outcome of one ProtoWriter.write call (proto_writer.py is not in the
available source; modelled from the spec: one non-blocking send that may
complete the buffer, leave it partial, or raise a transport fault). -/
inductive WriteOutcome where
  | incomplete
  | complete
  | fault (e : PyExn)
  deriving DecidableEq, Repr

/-- client.py __process_events: the read branch runs when the mask has the
read bit set, then the write branch when it has the write bit set; an
exception in a branch aborts the call keeping the mutations made so far.
The write branch first asserts the in-flight buffer is non-empty (an
absent message makes the attribute access itself raise). -/
def Client.processEvents (c : Client) (mask : Nat) (ro : ReadOutcome) (wo : WriteOutcome) :
    ClientResult :=
  let step1 : ClientResult :=
    if mask &&& EVENT_READ ≠ 0 then
      match ro with
      | ReadOutcome.fault e => ⟨c, some e⟩
      | ReadOutcome.incomplete => ⟨c, none⟩
      | ReadOutcome.complete k =>
        let r := c.processResponse k
        match r.raised with
        | some e => ⟨r.client, some e⟩
        | none => ⟨r.client.setWriteMode, none⟩
    else ⟨c, none⟩
  match step1 with
  | ⟨c1, some e⟩ => ⟨c1, some e⟩
  | ⟨c1, none⟩ =>
    if mask &&& EVENT_WRITE ≠ 0 then
      match c1.protoMessage with
      | none => ⟨c1, some PyExn.attributeError⟩
      | some pm =>
        if pm.buffer = [] then ⟨c1, some PyExn.assertionError⟩
        else
          match wo with
          | WriteOutcome.fault e => ⟨c1, some e⟩
          | WriteOutcome.incomplete => ⟨c1, none⟩
          | WriteOutcome.complete =>
            ⟨{ c1 with protoMessage := some pm.reset }.setReadMode, none⟩
    else ⟨c1, none⟩

/-- The exception classes named by the tick() except clause: RuntimeError,
ConnectionRefusedError, ConnectionResetError. -/
def isConnectionFault : PyExn → Bool
  | PyExn.runtimeError => true
  | PyExn.connectionRefusedError => true
  | PyExn.connectionResetError => true
  | _ => false

/-- client.py stop: best-effort unregister (every exception caught), then a
socket close guarded only by except OSError, with a finally that assigns
None to the socket field — so when the field is already None the attribute
access itself raises AttributeError, which escapes, and the selector close
line is not reached. -/
def Client.stop (c : Client) : ClientResult :=
  let c1 :=
    if c.selectorOpen && c.registration.isSome && c.socket.isSome then
      { c with registration := none }
    else c
  match c1.socket with
  | none => ⟨c1, some PyExn.attributeError⟩
  | some _ => ⟨{ c1 with socket := none, selectorOpen := false }, none⟩

/-- client.py tick: returns early when the selector map is falsy (selector
closed or nothing registered); otherwise one select round — when the socket
is ready its registered mask is processed, exceptions of the connection
fault classes are caught and trigger an internal stop(), anything else
propagates out. -/
def Client.tick (c : Client) (eventReady : Bool) (ro : ReadOutcome) (wo : WriteOutcome) :
    ClientResult :=
  match c.selectorOpen, c.registration with
  | true, some r =>
    if eventReady then
      let pr := c.processEvents r ro wo
      match pr.raised with
      | none => pr
      | some e => if isConnectionFault e then pr.client.stop else ⟨pr.client, some e⟩
    else ⟨c, none⟩
  | _, _ => ⟨c, none⟩

/-- A session driven by repeated tick calls, each with its own readiness and
transport outcomes. -/
def Client.tickTrace (c : Client) : List (Bool × ReadOutcome × WriteOutcome) → Client
  | [] => c
  | s :: rest => Client.tickTrace (c.tick s.1 s.2.1 s.2.2).client rest

/-- Repeated FiniteStateMachine.transition over the client table, threading
the in-flight message environment; a KeyError leaves the state unchanged
and the run continues with the remaining inputs. -/
def runInputs (s : ClientState) (env : Option ProtoMessage) :
    List ClientInput → ClientState × Option ProtoMessage
  | [] => (s, env)
  | i :: rest =>
    let r := (clientMachine s).transition i env
    runInputs r.machine.state r.env rest

theorem hasReadBit_read : (EVENT_READ &&& EVENT_READ ≠ 0) = True := eq_true (by decide)

theorem hasWriteBit_read : (EVENT_READ &&& EVENT_WRITE ≠ 0) = False := eq_false (by decide)

theorem hasReadBit_write : (EVENT_WRITE &&& EVENT_READ ≠ 0) = False := eq_false (by decide)

theorem hasWriteBit_write : (EVENT_WRITE &&& EVENT_WRITE ≠ 0) = True := eq_true (by decide)

/-- Claim C1: for every (state, input) pair declared in the FSM transition
table, transition raises no error; with no guard the state advances to the
declared next state and the environment is untouched; with a guard, the
guard's environment effects are kept in every case — they happen before the
state commits — and the state advances exactly when the guard returns true,
staying unchanged, still with no error, when it returns false. -/
theorem fsm_transition_declared {σ ι ε : Type} (m : FiniteStateMachine σ ι ε)
    (input : ι) (env : ε) (entry : TransitionEntry σ ε)
    (h : m.transitions m.state input = some entry) :
    (m.transition input env).raised = none ∧
    (m.transition input env).machine.transitions = m.transitions ∧
    (match entry.callback with
     | none =>
       (m.transition input env).machine.state = entry.state ∧
       (m.transition input env).env = env
     | some cb =>
       (m.transition input env).env = (cb env).1 ∧
       (m.transition input env).machine.state =
         (if (cb env).2 then entry.state else m.state)) := by
  unfold FiniteStateMachine.transition
  rw [h]
  cases hcb : entry.callback with
  | none => simp [hcb]
  | some cb =>
    by_cases hb : (cb env).2 <;> simp [hcb, hb]

/-- Witness for C1 at the declared client table entry (DISCONNECTED, INIT),
whose guard transition_connected returns true and builds the ready
message. -/
theorem fsm_transition_declared_witness :
    (clientMachine ClientState.DISCONNECTED).transitions
        (clientMachine ClientState.DISCONNECTED).state ClientInput.INIT =
      some ⟨ClientState.CONNECTED, some transition_connected⟩ ∧
    ((clientMachine ClientState.DISCONNECTED).transition ClientInput.INIT none).raised = none ∧
    ((clientMachine ClientState.DISCONNECTED).transition ClientInput.INIT none).env =
      some ProtoMessage.ready_message ∧
    ((clientMachine ClientState.DISCONNECTED).transition ClientInput.INIT none).machine.state =
      ClientState.CONNECTED := by
  have h := fsm_transition_declared (clientMachine ClientState.DISCONNECTED) ClientInput.INIT
    none ⟨ClientState.CONNECTED, some transition_connected⟩ rfl
  exact ⟨rfl, h.1, h.2.2.1, h.2.2.2⟩

/-- Claim C4: for every (state, input) pair not declared in the table,
transition raises a KeyError lookup fault and leaves the machine — its
state and table — and the environment unchanged. -/
theorem fsm_transition_undeclared {σ ι ε : Type} (m : FiniteStateMachine σ ι ε)
    (input : ι) (env : ε) (h : m.transitions m.state input = none) :
    m.transition input env = ⟨m, env, some PyExn.keyError⟩ := by
  unfold FiniteStateMachine.transition
  rw [h]

/-- Witness for C4 at the undeclared client table pair (DISCONNECTED, STOP). -/
theorem fsm_transition_undeclared_witness :
    (clientMachine ClientState.DISCONNECTED).transitions
        (clientMachine ClientState.DISCONNECTED).state ClientInput.STOP = none ∧
    (clientMachine ClientState.DISCONNECTED).transition ClientInput.STOP none =
      ⟨clientMachine ClientState.DISCONNECTED, none, some PyExn.keyError⟩ :=
  ⟨rfl, fsm_transition_undeclared (clientMachine ClientState.DISCONNECTED) ClientInput.STOP
    none rfl⟩

/-- Claim C2, the code evaluated at the failing input: the first stop() on a
connected session returns normally and drops the socket field to None, but
a second stop() then raises AttributeError — the close call is guarded only
by except OSError, which does not cover the attribute access on None — so
stop() is not idempotent. -/
theorem stop_second_call_raises :
    ((Client.init.connect "Player2").stop).raised = none ∧
    ((Client.init.connect "Player2").stop).client.socket = none ∧
    (((Client.init.connect "Player2").stop).client.stop).raised =
      some PyExn.attributeError :=
  ⟨rfl, rfl, rfl⟩

/-- Claim C7 counterexample: READY is a fourth member of the ClientState
enumeration, so the connection-state enumeration does not consist of
exactly the three states Disconnected, Connected and Playing. -/
theorem clientState_ready_is_fourth :
    ClientState.READY ≠ ClientState.DISCONNECTED ∧
    ClientState.READY ≠ ClientState.CONNECTED ∧
    ClientState.READY ≠ ClientState.PLAYING ∧
    ¬ (∀ s : ClientState, s = ClientState.DISCONNECTED ∨ s = ClientState.CONNECTED ∨
        s = ClientState.PLAYING) := by
  refine ⟨by decide, by decide, by decide, fun h => by rcases h ClientState.READY with h1 | h1 | h1 <;> cases h1⟩

/-- Claim C7 amended: the enumeration has exactly the four states
DISCONNECTED, CONNECTED, READY and PLAYING; DISCONNECTED is the initial
state, PLAYING self-loops on the UPDATE input and returns to DISCONNECTED
on the STOP input. -/
theorem clientState_four_states :
    (∀ s : ClientState, s = ClientState.DISCONNECTED ∨ s = ClientState.CONNECTED ∨
      s = ClientState.READY ∨ s = ClientState.PLAYING) ∧
    Client.init.fsmState = ClientState.DISCONNECTED ∧
    (clientTransitions ClientState.PLAYING ClientInput.UPDATE).map TransitionEntry.state =
      some ClientState.PLAYING ∧
    (clientTransitions ClientState.PLAYING ClientInput.STOP).map TransitionEntry.state =
      some ClientState.DISCONNECTED := by
  refine ⟨fun s => by cases s <;> simp, rfl, rfl, rfl⟩

/-- The lookup in __process_response leaves everything untouched when the
decoded kind has no ClientInput member. -/
theorem processResponse_unknown (c : Client) (k : String)
    (hk : parseClientInput k = none) :
    c.processResponse k = ⟨c, some PyExn.valueError⟩ := by
  unfold Client.processResponse
  rw [hk]

/-- Claim C3: when the decoded response kind maps to no ClientInput, the
ValueError raised by the enum lookup is not among the caught connection
fault classes, so tick propagates it and the client — in particular its FSM
state — is unchanged. -/
theorem tick_unknown_kind (c : Client) (k : String) (wo : WriteOutcome)
    (hsel : c.selectorOpen = true) (hreg : c.registration = some EVENT_READ)
    (hk : parseClientInput k = none) :
    c.tick true (ReadOutcome.complete k) wo = ⟨c, some PyExn.valueError⟩ := by
  unfold Client.tick
  rw [hsel, hreg]
  simp only [Client.processEvents, hasReadBit_read, hasWriteBit_read, if_true, if_false,
    ite_true, ite_false, processResponse_unknown c k hk]
  rfl

/-- Witness for C3: a connected client registered for reading receives a
decoded response with the unknown kind BOGUS. -/
theorem tick_unknown_kind_witness :
    (⟨ClientState.CONNECTED, none, 1, some EVENT_READ, true, some ()⟩ : Client).selectorOpen =
      true ∧
    (⟨ClientState.CONNECTED, none, 1, some EVENT_READ, true, some ()⟩ : Client).registration =
      some EVENT_READ ∧
    parseClientInput "BOGUS" = none ∧
    (⟨ClientState.CONNECTED, none, 1, some EVENT_READ, true, some ()⟩ : Client).tick true
        (ReadOutcome.complete "BOGUS") WriteOutcome.incomplete =
      ⟨⟨ClientState.CONNECTED, none, 1, some EVENT_READ, true, some ()⟩,
        some PyExn.valueError⟩ :=
  ⟨rfl, rfl, rfl,
    tick_unknown_kind ⟨ClientState.CONNECTED, none, 1, some EVENT_READ, true, some ()⟩
      "BOGUS" WriteOutcome.incomplete rfl rfl rfl⟩

/-- Claim C5 counterexample: a ConnectionAbortedError raised by the
transport while tick processes a read event is a transport-level connection
fault, yet it is not among the classes the except clause catches, so it
propagates out of tick and no internal stop happens — the socket is still
held afterwards. -/
theorem tick_aborted_fault_propagates :
    (({ Client.init with registration := some EVENT_READ } : Client).tick true
        (ReadOutcome.fault PyExn.connectionAbortedError) WriteOutcome.incomplete).raised =
      some PyExn.connectionAbortedError ∧
    (({ Client.init with registration := some EVENT_READ } : Client).tick true
        (ReadOutcome.fault PyExn.connectionAbortedError) WriteOutcome.incomplete).client.socket =
      some () :=
  ⟨rfl, rfl⟩

/-- Claim C5 amended: a connection fault of one of the caught classes —
RuntimeError for a peer close, ConnectionRefusedError, ConnectionResetError
— raised while tick processes a readiness event is caught inside tick,
triggers an internal stop (unregister, socket dropped, selector closed) and
does not propagate; this holds for read-side and write-side faults alike,
while transport faults of other classes propagate. -/
theorem tick_catches_connection_faults (c : Client) (e : PyExn)
    (hconn : isConnectionFault e = true) (hsel : c.selectorOpen = true)
    (hsock : c.socket = some ()) :
    (∀ wo : WriteOutcome, c.registration = some EVENT_READ →
      c.tick true (ReadOutcome.fault e) wo =
        ⟨{ c with registration := none, socket := none, selectorOpen := false }, none⟩) ∧
    (∀ (ro : ReadOutcome) (pm : ProtoMessage), c.registration = some EVENT_WRITE →
      c.protoMessage = some pm → pm.buffer ≠ [] →
      c.tick true ro (WriteOutcome.fault e) =
        ⟨{ c with registration := none, socket := none, selectorOpen := false }, none⟩) := by
  constructor
  · intro wo hreg
    unfold Client.tick
    rw [hsel, hreg]
    simp only [Client.processEvents, hasReadBit_read, hasWriteBit_read, if_true, if_false,
      ite_true, ite_false, hconn]
    unfold Client.stop
    simp [hsel, hsock, hreg]
  · intro ro pm hreg hpm hbuf
    unfold Client.tick
    rw [hsel, hreg]
    cases ro <;>
      · simp only [Client.processEvents, hasReadBit_write, hasWriteBit_write, if_true, if_false,
          ite_true, ite_false, hpm, hbuf, hconn]
        unfold Client.stop
        simp [hsel, hsock, hreg, hconn, hbuf, hpm]

/-- Witness for the amended C5 at a concrete connected client hit by a
ConnectionResetError during the read phase. -/
theorem tick_catches_connection_faults_witness :
    isConnectionFault PyExn.connectionResetError = true ∧
    (⟨ClientState.CONNECTED, none, 1, some EVENT_READ, true, some ()⟩ : Client).tick true
        (ReadOutcome.fault PyExn.connectionResetError) WriteOutcome.incomplete =
      ⟨⟨ClientState.CONNECTED, none, 1, none, false, none⟩, none⟩ :=
  ⟨rfl,
    (tick_catches_connection_faults
        ⟨ClientState.CONNECTED, none, 1, some EVENT_READ, true, some ()⟩
        PyExn.connectionResetError rfl rfl rfl).1 WriteOutcome.incomplete rfl⟩

/-- Claim C6: after connect, a decoded response of kind INIT moves the FSM
from DISCONNECTED to CONNECTED and builds the ready message as the next
in-flight message; from CONNECTED, a decoded response of kind START moves
the FSM to PLAYING and builds the input message, whose command list is
non-empty. -/
theorem client_init_start_scenarios :
    (∀ p : String,
      ((Client.init.connect p).processResponse "INIT").raised = none ∧
      ((Client.init.connect p).processResponse "INIT").client.fsmState =
        ClientState.CONNECTED ∧
      ((Client.init.connect p).processResponse "INIT").client.protoMessage =
        some ProtoMessage.ready_message ∧
      ProtoMessage.ready_message.kind = MessageKind.ready) ∧
    (∀ c : Client, c.fsmState = ClientState.CONNECTED →
      ((c.processResponse "START").raised = none ∧
       (c.processResponse "START").client.fsmState = ClientState.PLAYING ∧
       (c.processResponse "START").client.protoMessage =
         some (ProtoMessage.input_message ["FORWARD", "LEFT", "FIRE"]) ∧
       (ProtoMessage.input_message ["FORWARD", "LEFT", "FIRE"]).kind = MessageKind.input ∧
       (ProtoMessage.input_message ["FORWARD", "LEFT", "FIRE"]).commands ≠ [])) := by
  constructor
  · intro p
    exact ⟨rfl, rfl, rfl, rfl⟩
  · intro c hc
    obtain ⟨s, pm, n, reg, sel, sock⟩ := c
    have hs : s = ClientState.CONNECTED := hc
    subst hs
    exact ⟨rfl, rfl, rfl, rfl, by decide⟩

/-- Witness for C6 at the concrete player name Player2, chaining scenario A
into scenario B. -/
theorem client_init_start_scenarios_witness :
    ((Client.init.connect "Player2").processResponse "INIT").client.fsmState =
      ClientState.CONNECTED ∧
    ((Client.init.connect "Player2").processResponse "INIT").client.protoMessage =
      some ProtoMessage.ready_message ∧
    ((((Client.init.connect "Player2").processResponse "INIT").client.processResponse
        "START").client.fsmState = ClientState.PLAYING ∧
      (((Client.init.connect "Player2").processResponse "INIT").client.processResponse
        "START").client.protoMessage =
        some (ProtoMessage.input_message ["FORWARD", "LEFT", "FIRE"])) :=
  ⟨(client_init_start_scenarios.1 "Player2").2.1,
   (client_init_start_scenarios.1 "Player2").2.2.1,
   (client_init_start_scenarios.2
      ((Client.init.connect "Player2").processResponse "INIT").client rfl).2.1,
   (client_init_start_scenarios.2
      ((Client.init.connect "Player2").processResponse "INIT").client rfl).2.2.1⟩

/-- Claim C10: when tick processes a writable readiness event while the
in-flight message's serialized buffer is empty, the assertion at the top of
the write branch fails: an AssertionError is raised — it is no connection
fault, so it propagates out of tick — and no send happens, the client being
returned unchanged whatever the write outcome would have been. -/
theorem tick_write_empty_buffer_asserts (c : Client) (pm : ProtoMessage)
    (ro : ReadOutcome) (wo : WriteOutcome)
    (hsel : c.selectorOpen = true) (hreg : c.registration = some EVENT_WRITE)
    (hpm : c.protoMessage = some pm) (hbuf : pm.buffer = []) :
    c.tick true ro wo = ⟨c, some PyExn.assertionError⟩ := by
  unfold Client.tick
  rw [hsel, hreg]
  cases ro <;>
    · simp only [Client.processEvents, hasReadBit_write, hasWriteBit_write, if_true, if_false,
        ite_true, ite_false, hpm, hbuf]
      rfl

/-- Witness for C10: a playing client registered for writing whose
in-flight ready message was already reset to an empty buffer. -/
theorem tick_write_empty_buffer_asserts_witness :
    ProtoMessage.ready_message.reset.buffer = [] ∧
    (⟨ClientState.PLAYING, some ProtoMessage.ready_message.reset, 2, some EVENT_WRITE, true,
        some ()⟩ : Client).tick true ReadOutcome.incomplete WriteOutcome.complete =
      ⟨⟨ClientState.PLAYING, some ProtoMessage.ready_message.reset, 2, some EVENT_WRITE, true,
          some ()⟩, some PyExn.assertionError⟩ :=
  ⟨rfl,
    tick_write_empty_buffer_asserts
      ⟨ClientState.PLAYING, some ProtoMessage.ready_message.reset, 2, some EVENT_WRITE, true,
        some ()⟩ ProtoMessage.ready_message.reset ReadOutcome.incomplete WriteOutcome.complete
      rfl rfl rfl rfl⟩

/-- Any single client-table transition from a state other than READY lands
in a state other than READY. -/
theorem step_ne_ready (s : ClientState) (i : ClientInput) (env : Option ProtoMessage)
    (hs : s ≠ ClientState.READY) :
    ((clientMachine s).transition i env).machine.state ≠ ClientState.READY := by
  cases s <;> cases i <;>
    first
      | exact absurd rfl hs
      | (show ClientState.DISCONNECTED ≠ ClientState.READY
         decide)
      | (show ClientState.CONNECTED ≠ ClientState.READY
         decide)
      | (show ClientState.PLAYING ≠ ClientState.READY
         decide)

/-- Along a run of the client machine, a start state other than READY never
reaches READY. -/
theorem runInputs_ne_ready : ∀ (l : List ClientInput) (s : ClientState)
    (env : Option ProtoMessage), s ≠ ClientState.READY →
    (runInputs s env l).1 ≠ ClientState.READY
  | [], _, _, hs => hs
  | i :: rest, s, env, hs =>
    runInputs_ne_ready rest _ _ (step_ne_ready s i env hs)

/-- Claim C9: running any input sequence through the FSM transition from
DISCONNECTED over the client's table never reaches the declared READY
member, and no table entry has READY as its target. -/
theorem ready_unreachable :
    (∀ l : List ClientInput,
      (runInputs ClientState.DISCONNECTED none l).1 ≠ ClientState.READY) ∧
    (∀ (s : ClientState) (i : ClientInput),
      (clientTransitions s i).map TransitionEntry.state ≠ some ClientState.READY) := by
  refine ⟨fun l => runInputs_ne_ready l _ _ (by decide), fun s i => ?_⟩
  cases s <;> cases i <;> decide

/-- Witness for C9 on the concrete run INIT, START, UPDATE, STOP. -/
theorem ready_unreachable_witness :
    (runInputs ClientState.DISCONNECTED none
      [ClientInput.INIT, ClientInput.START, ClientInput.UPDATE, ClientInput.STOP]).1 ≠
      ClientState.READY :=
  ready_unreachable.1 [ClientInput.INIT, ClientInput.START, ClientInput.UPDATE, ClientInput.STOP]

/-- The method __process_response never touches the selector registration. -/
theorem processResponse_registration (c : Client) (k : String) :
    ((c.processResponse k).client).registration = c.registration := by
  unfold Client.processResponse
  rcases parseClientInput k with _ | i
  · rfl
  · dsimp only
    rcases ((clientMachine c.fsmState).transition i c.protoMessage).raised with _ | e <;> rfl

/-- A read-masked __process_events call leaves the registration alone or
switches it to write interest. -/
theorem processEvents_read_registration (c : Client) (ro : ReadOutcome) (wo : WriteOutcome) :
    ((c.processEvents EVENT_READ ro wo).client).registration = c.registration ∨
    ((c.processEvents EVENT_READ ro wo).client).registration = some EVENT_WRITE := by
  unfold Client.processEvents
  cases ro with
  | incomplete =>
    simp only [hasReadBit_read, hasWriteBit_read, if_true, if_false, ite_true, ite_false]
    exact Or.inl trivial
  | fault e =>
    simp only [hasReadBit_read, hasWriteBit_read, if_true, if_false, ite_true, ite_false]
    exact Or.inl trivial
  | complete k =>
    simp only [hasReadBit_read, hasWriteBit_read, if_true, if_false, ite_true, ite_false]
    rcases h : (c.processResponse k).raised with _ | e
    · simp [h, Client.setWriteMode]
    · simp [h, processResponse_registration]

/-- A write-masked __process_events call leaves the registration alone or
switches it to read interest. -/
theorem processEvents_write_registration (c : Client) (ro : ReadOutcome) (wo : WriteOutcome) :
    ((c.processEvents EVENT_WRITE ro wo).client).registration = c.registration ∨
    ((c.processEvents EVENT_WRITE ro wo).client).registration = some EVENT_READ := by
  unfold Client.processEvents
  simp only [hasReadBit_write, hasWriteBit_write, if_true, if_false, ite_true, ite_false]
  rcases c.protoMessage with _ | pm
  · simp
  · by_cases hb : pm.buffer = []
    · simp [hb]
    · cases wo <;> simp [hb, Client.setReadMode]

/-- Calling stop leaves the registration alone or removes it. -/
theorem stop_registration (c : Client) :
    ((c.stop).client).registration = c.registration ∨ ((c.stop).client).registration = none := by
  unfold Client.stop
  by_cases h : (c.selectorOpen && c.registration.isSome && c.socket.isSome) = true
  · rw [if_pos h]
    rcases hs : c.socket with _ | u <;> simp [hs]
  · rw [if_neg h]
    rcases hs : c.socket with _ | u <;> simp [hs]

/-- One tick keeps the registration in the set consisting of none, read
interest and write interest. -/
theorem tick_registration (c : Client) (er : Bool) (ro : ReadOutcome) (wo : WriteOutcome)
    (hreg : c.registration = none ∨ c.registration = some EVENT_READ ∨
      c.registration = some EVENT_WRITE) :
    ((c.tick er ro wo).client).registration = none ∨
    ((c.tick er ro wo).client).registration = some EVENT_READ ∨
    ((c.tick er ro wo).client).registration = some EVENT_WRITE := by
  unfold Client.tick
  rcases hsel : c.selectorOpen with _ | _
  · simpa [hsel] using hreg
  rcases hr : c.registration with _ | r
  · simp [hsel, hr]
  rcases er with _ | _
  · simpa [hsel, hr] using hreg
  have hr12 : r = EVENT_READ ∨ r = EVENT_WRITE := by
    rcases hreg with h | h | h <;> rw [hr] at h
    · cases h
    · exact Or.inl (Option.some.inj h)
    · exact Or.inr (Option.some.inj h)
  have hpe : ((c.processEvents r ro wo).client).registration = c.registration ∨
      ((c.processEvents r ro wo).client).registration = some EVENT_READ ∨
      ((c.processEvents r ro wo).client).registration = some EVENT_WRITE := by
    rcases hr12 with h12 | h12 <;> subst h12
    · rcases processEvents_read_registration c ro wo with h | h
      · exact Or.inl h
      · exact Or.inr (Or.inr h)
    · rcases processEvents_write_registration c ro wo with h | h
      · exact Or.inl h
      · exact Or.inr (Or.inl h)
  have hpe3 : ((c.processEvents r ro wo).client).registration = none ∨
      ((c.processEvents r ro wo).client).registration = some EVENT_READ ∨
      ((c.processEvents r ro wo).client).registration = some EVENT_WRITE := by
    rcases hpe with h | h
    · rw [h]; exact hreg
    · exact Or.inr h
  rcases hra : (c.processEvents r ro wo).raised with _ | e
  · simpa [hsel, hr, hra] using hpe3
  · rcases hcf : isConnectionFault e with _ | _
    · simpa [hsel, hr, hra, hcf] using hpe3
    · rcases stop_registration (c.processEvents r ro wo).client with h | h <;>
        simp only [hsel, hr, hra, hcf, if_true, if_false, ite_true, ite_false]
      · rw [h]
        exact hpe3
      · simp [h]

/-- Along any tick trace, a registration in the set consisting of none, read
interest and write interest stays in that set. -/
theorem tickTrace_registration :
    ∀ (l : List (Bool × ReadOutcome × WriteOutcome)) (c : Client),
    (c.registration = none ∨ c.registration = some EVENT_READ ∨
      c.registration = some EVENT_WRITE) →
    ((c.tickTrace l).registration = none ∨ (c.tickTrace l).registration = some EVENT_READ ∨
      (c.tickTrace l).registration = some EVENT_WRITE)
  | [], _, hc => hc
  | s :: rest, c, hc =>
    tickTrace_registration rest _ (tick_registration c s.1 s.2.1 s.2.2 hc)

/-- Claim C8: after connect the registration carries exactly one interest —
along any tick trace it is the single mask EVENT_READ or the single mask
EVENT_WRITE while the socket is registered (never a combined mask), and
none only once stop has unregistered it; moreover a completed read phase
inside __process_events switches the registration to write interest and a
completed write phase switches it to read interest. -/
theorem interest_invariant :
    (∀ (p : String) (l : List (Bool × ReadOutcome × WriteOutcome)),
      ((Client.init.connect p).tickTrace l).registration = none ∨
      ((Client.init.connect p).tickTrace l).registration = some EVENT_READ ∨
      ((Client.init.connect p).tickTrace l).registration = some EVENT_WRITE) ∧
    (∀ (c : Client) (k : String) (wo : WriteOutcome),
      (c.processResponse k).raised = none →
      (c.processEvents EVENT_READ (ReadOutcome.complete k) wo).client.registration =
          some EVENT_WRITE ∧
      (c.processEvents EVENT_READ (ReadOutcome.complete k) wo).raised = none) ∧
    (∀ (c : Client) (pm : ProtoMessage) (ro : ReadOutcome),
      c.protoMessage = some pm → pm.buffer ≠ [] →
      (c.processEvents EVENT_WRITE ro WriteOutcome.complete).client.registration =
          some EVENT_READ ∧
      (c.processEvents EVENT_WRITE ro WriteOutcome.complete).raised = none) := by
  refine ⟨fun p l => tickTrace_registration l _ (Or.inr (Or.inr rfl)), ?_, ?_⟩
  · intro c k wo h
    unfold Client.processEvents
    simp only [hasReadBit_read, hasWriteBit_read, if_true, if_false, ite_true, ite_false, h]
    exact ⟨rfl, trivial⟩
  · intro c pm ro hpm hbuf
    unfold Client.processEvents
    simp only [hasReadBit_write, hasWriteBit_write, if_true, if_false, ite_true, ite_false,
      hpm, hbuf]
    exact ⟨rfl, trivial⟩

/-- Witness for C8: the empty trace after connect keeps the single write
interest, and a completed read phase on a concrete reading client switches
the registration to write interest. -/
theorem interest_invariant_witness :
    ((Client.init.connect "Player2").tickTrace []).registration = some EVENT_WRITE ∧
    ((⟨ClientState.DISCONNECTED, none, 0, some EVENT_READ, true, some ()⟩ : Client).processResponse
        "INIT").raised = none ∧
    ((⟨ClientState.DISCONNECTED, none, 0, some EVENT_READ, true, some ()⟩ : Client).processEvents
        EVENT_READ (ReadOutcome.complete "INIT") WriteOutcome.incomplete).client.registration =
      some EVENT_WRITE := by
  refine ⟨?_, rfl, (interest_invariant.2.1
    ⟨ClientState.DISCONNECTED, none, 0, some EVENT_READ, true, some ()⟩
    "INIT" WriteOutcome.incomplete rfl).1⟩
  rcases interest_invariant.1 "Player2" [] with h | h | h
  · cases h
  · cases h
  · exact h
